import Mathlib

/-!
Verification development for the DocuMind retrieval-augmented-generation pipeline.

The Python sources are shallowly embedded as executable Lean definitions:
  * `document_processor.py` — chunking (the repository delegates the split itself to
    langchain's `RecursiveCharacterTextSplitter`, an external dependency; that algorithm
    is modelled below from the spec's description of it and the library's documented
    recursive split/merge behaviour, while the separator list, chunk-metadata
    construction and page enumeration are taken verbatim from the repository source);
  * `vector_store.py` — store construction with its corruption-fallback chain, add,
    similarity search and stats (the ChromaDB collection, an external dependency, is
    modelled as a list of stored entries; distances are abstracted by a per-query
    distance oracle since the embedding model is external);
  * `llm_handler.py` — the generation worker wrapper: availability probing at
    construction, and the answer/summary generation paths with all their string
    fallbacks (the worker subprocess and JSON parsing are modelled by explicit
    outcome oracles);
  * `app.py` — the chat-step orchestration that dispatches on empty retrieval.

Text handled by the chunker is represented as `List Char` (Python `len` counts
characters), machine-level floats are abstracted to `ℚ` where only ordering matters,
and every fallible path is explicit in the types.
-/

namespace DocuMind

/-! ## Chunker (DocumentProcessor.text_splitter) -/

/-- Whitespace predicate matching Python `str.strip`'s default character class
(space, tab, newline, carriage return, vertical tab, form feed). -/
def isPySpace (c : Char) : Bool :=
  c = ' ' || c = '\t' || c = '\n' || c = '\r' || c = '\x0b' || c = '\x0c'

/-- Python `str.strip()` on a character list: drop leading and trailing whitespace. -/
def stripChunk (l : List Char) : List Char :=
  ((l.dropWhile isPySpace).reverse.dropWhile isPySpace).reverse

/-- Remove `sep` as a prefix of `l` if it is one, returning the remainder. -/
def stripPrefixQ : List Char → List Char → Option (List Char)
  | [], l => some l
  | _ :: _, [] => none
  | a :: as, b :: bs => if a = b then stripPrefixQ as bs else none

/-- Does `sep` occur as a contiguous substring of the text?  This is `re.search`
with an escaped (hence literal) pattern, as langchain uses for separator selection. -/
def occursIn (sep : List Char) : List Char → Bool
  | [] => sep.isEmpty
  | c :: cs => (stripPrefixQ sep (c :: cs)).isSome || occursIn sep cs

/-- Split the text at each leftmost non-overlapping occurrence of the non-empty
separator, as `re.split` does with a literal pattern.  `acc` is the reversed current
piece.  `fuel` bounds the recursion; it is called with fuel = text length, which
always suffices because every step consumes at least one character, so the
fuel-exhausted clause is unreachable. -/
def splitOnSepGo (sep : List Char) : Nat → List Char → List Char → List (List Char)
  | _, acc, [] => [acc.reverse]
  | 0, acc, rest => [acc.reverse ++ rest]
  | fuel + 1, acc, c :: cs =>
    match stripPrefixQ sep (c :: cs) with
    | some rest => acc.reverse :: splitOnSepGo sep fuel [] rest
    | none => splitOnSepGo sep fuel (c :: acc) cs

/-- Split on a literal separator (whole text if the separator is empty). -/
def splitOnSep (sep text : List Char) : List (List Char) :=
  match sep with
  | [] => [text]
  | _ :: _ => splitOnSepGo sep text.length [] text

/-- langchain `_split_text_with_regex` with `keep_separator`: the separator is
reattached to the front of each following piece, and empty pieces are dropped. -/
def splitWithSep (sep text : List Char) : List (List Char) :=
  match splitOnSep sep text with
  | [] => []
  | p :: ps => (p :: ps.map (fun q => sep ++ q)).filter (fun q => !q.isEmpty)

/-- langchain `_split_text`'s separator selection: choose the first separator that is
empty or occurs in the text (defaulting to the last one), together with the remaining
finer separators for recursive splitting. -/
def findSep (text : List Char) : List (List Char) → List Char × List (List Char)
  | [] => ([], [])
  | s :: rest =>
    if s.isEmpty then ([], [])
    else if occursIn s text then (s, rest)
    else
      match rest with
      | [] => (s, [])
      | _ :: _ => findSep text rest

/-- Join pieces with a separator between them (Python `separator.join`). -/
def joinWith (sep : List Char) : List (List Char) → List Char
  | [] => []
  | [d] => d
  | d :: ds => d ++ sep ++ joinWith sep ds

/-- langchain `_join_docs` with the default `strip_whitespace = True`: join, strip,
and drop the result when it is empty. -/
def joinDocs (sep : List Char) (docs : List (List Char)) : Option (List Char) :=
  let text := stripChunk (joinWith sep docs)
  if text.isEmpty then none else some text

/-- The inner while-loop of langchain `_merge_splits`: pop pieces from the front of
the current buffer until the retained total is within `overlap` and adding the next
piece would fit (the loop exits when the buffer empties, at which point the running
total is zero and the condition is false). -/
def popOverlap (chunkSize overlap : Nat) (sepLen dLen : Int) :
    List (List Char) → Int → List (List Char) × Int
  | [], total => ([], total)
  | c :: rest, total =>
    if total > (overlap : Int) ∨ (total + dLen + sepLen > (chunkSize : Int) ∧ total > 0) then
      popOverlap chunkSize overlap sepLen dLen rest
        (total - ((c.length : Int) + (if rest.isEmpty then 0 else sepLen)))
    else (c :: rest, total)

/-- Main loop of langchain `_merge_splits`.  `docs` are the emitted chunks, `cur` the
current buffer, `total` the running joined length. -/
def mergeLoop (chunkSize overlap : Nat) (sep : List Char) :
    List (List Char) → List (List Char) → Int → List (List Char) → List (List Char)
  | docs, cur, _, [] =>
    (match joinDocs sep cur with
     | none => docs
     | some d => docs ++ [d])
  | docs, cur, total, d :: rest =>
    let dLen : Int := d.length
    let sepLen : Int := sep.length
    if total + dLen + (if cur.isEmpty then 0 else sepLen) > (chunkSize : Int) then
      let docs1 :=
        if cur.isEmpty then docs
        else
          match joinDocs sep cur with
          | none => docs
          | some dd => docs ++ [dd]
      let pair :=
        if cur.isEmpty then (cur, total)
        else popOverlap chunkSize overlap sepLen dLen cur total
      mergeLoop chunkSize overlap sep docs1 (pair.1 ++ [d])
        (pair.2 + dLen + (if pair.1.isEmpty then 0 else sepLen)) rest
    else
      mergeLoop chunkSize overlap sep docs (cur ++ [d])
        (total + dLen + (if cur.isEmpty then 0 else sepLen)) rest

/-- langchain `_merge_splits`: recombine adjacent small pieces up to `chunkSize`,
carrying an `overlap`-bounded tail of the previous chunk forward. -/
def mergeSplits (chunkSize overlap : Nat) (sep : List Char)
    (splits : List (List Char)) : List (List Char) :=
  mergeLoop chunkSize overlap sep [] [] 0 splits

/-- The accumulation loop of langchain `_split_text`: buffer consecutive small splits
(length strictly below `chunkSize`), flushing the buffer through `mergeSplits`;
oversized splits are handed to `handleBig` (recursive splitting with the finer
separators, or kept whole when none remain). -/
def buildChunks (chunkSize overlap : Nat) (sep : List Char)
    (handleBig : List Char → List (List Char)) :
    List (List Char) → List (List Char) → List (List Char)
  | good, [] => if good.isEmpty then [] else mergeSplits chunkSize overlap sep good
  | good, s :: rest =>
    if s.length < chunkSize then
      buildChunks chunkSize overlap sep handleBig (good ++ [s]) rest
    else
      (if good.isEmpty then [] else mergeSplits chunkSize overlap sep good)
        ++ handleBig s
        ++ buildChunks chunkSize overlap sep handleBig [] rest

/-- langchain `RecursiveCharacterTextSplitter._split_text` with the constructor
defaults used by the repository (`keep_separator`, so merged chunks are joined with
the empty separator; `is_separator_regex = False`, so separators match literally).
`fuel` bounds the recursion depth; the separator list strictly shrinks on each
recursive call, so fuel = initial list length always suffices and the fuel-exhausted
and empty-separator-list clauses are unreachable from `split_text`. -/
def splitTextAux (chunkSize overlap : Nat) : Nat → List (List Char) → List Char → List (List Char)
  | _, [], text => [text]
  | 0, _, text => [text]
  | fuel + 1, s :: srest, text =>
    let sel := findSep text (s :: srest)
    let splits :=
      if sel.1.isEmpty then text.map (fun c => [c])
      else splitWithSep sel.1 text
    buildChunks chunkSize overlap []
      (fun t => if sel.2.isEmpty then [t] else splitTextAux chunkSize overlap fuel sel.2 t)
      [] splits

/-- `DocumentProcessor.text_splitter.split_text`. -/
def split_text (chunkSize overlap : Nat) (seps : List (List Char)) (text : List Char) :
    List (List Char) :=
  splitTextAux chunkSize overlap seps.length seps text

/-- Separator list as written in `DocumentProcessor.__init__`: the Python source
reads `separators=["\\n\\n", "\\n", " ", ""]`, so each "newline" separator is the
literal two-character sequence backslash-n, not a newline character. -/
def codeSeparators : List (List Char) :=
  ["\\n\\n".toList, "\\n".toList, " ".toList, "".toList]

/-- Separator list the spec describes: paragraph break, line break, word boundary,
character. -/
def specSeparators : List (List Char) :=
  ["\n\n".toList, "\n".toList, " ".toList, "".toList]

/-- The spec's worked ingestion example (with real newline characters). -/
def exampleText : List Char :=
  "Paragraph one.\n\nParagraph two is longer than chunk size...".toList

/-! ## DocumentProcessor: page extraction and chunk metadata -/

/-- Metadata attached to each produced chunk (`process_document`, lines 133-141). -/
structure ChunkMeta where
  document : String
  page : Nat
  chunk_id : String
  source_type : String
  deriving DecidableEq

/-- A chunk as produced by `DocumentProcessor.process_document`. -/
structure Chunk where
  text : List Char
  metadata : ChunkMeta
  deriving DecidableEq

/-- One page record as returned by the extraction helpers. -/
structure PageData where
  text : List Char
  page : Nat
  total_pages : Nat
  deriving DecidableEq

/-- Python `enumerate(l, start = n)`. -/
def enumFrom (n : Nat) : List α → List (Nat × α)
  | [] => []
  | a :: as => (n, a) :: enumFrom (n + 1) as

/-- `DocumentProcessor.extract_text_from_pdf`: the PDF reader itself is external
(PyPDF2); its per-page raw texts are the input.  Pages are enumerated starting at 1
and only pages whose text is non-empty after stripping are kept. -/
def extract_text_from_pdf (rawPages : List (List Char)) : List PageData :=
  (enumFrom 1 rawPages).filterMap fun p =>
    if !(stripChunk p.2).isEmpty then
      some { text := p.2, page := p.1, total_pages := rawPages.length }
    else none

/-- The chunk-identifier format string of `process_document` (line 138). -/
def mkChunkId (filename : String) (page idx : Nat) : String :=
  filename ++ "_page" ++ toString page ++ "_chunk" ++ toString idx

/-- The chunk-building loop of `DocumentProcessor.process_document` (lines 122-143):
for each page, split its text and attach metadata; the chunk index comes from a
zero-based `enumerate` that restarts on every page.  The extension dispatch that
produces `pagesData` is abstracted to the input. -/
def process_document (chunkSize overlap : Nat) (seps : List (List Char))
    (filename : String) (srcType : String) (pagesData : List PageData) : List Chunk :=
  (pagesData.map fun pd =>
    (enumFrom 0 (split_text chunkSize overlap seps pd.text)).map fun ic =>
      { text := ic.2,
        metadata :=
          { document := filename, page := pd.page,
            chunk_id := mkChunkId filename pd.page ic.1,
            source_type := srcType } }).flatten

/-! ## VectorStoreManager -/

/-- Chroma metadata record carried by stored entries and search results; `page` may
be absent in general metadata dictionaries, hence the option. -/
structure DocMeta where
  document : String
  pageNum : Option Nat
  deriving DecidableEq

/-- One record of the (external) ChromaDB collection, keyed by its id. -/
structure StoredEntry where
  id : String
  text : String
  meta : DocMeta
  deriving DecidableEq

/-- A formatted result of `search_similar` (text, metadata, distance). -/
structure SearchResult where
  text : String
  meta : DocMeta
  distance : ℚ
  deriving DecidableEq

/-- Statistics record of `get_collection_stats`. -/
structure CollectionStats where
  total_documents : Nat
  collection_name : String
  deriving DecidableEq

/-- Failure modes of opening the persistent Chroma store: the migration/schema
incompatibility (`InconsistentHashError`) the code catches specially, or any other
startup error. -/
inductive ChromaErr where
  | inconsistentHash
  | other
  deriving DecidableEq

/-- The fixed store path of `VectorStoreManager.__init__`. -/
def db_path : String := "./chroma_db"

/-- The fresh fallback path suffixed with the current Unix timestamp. -/
def fresh_path (t : Nat) : String := "./chroma_db_" ++ toString t

/-- `VectorStoreManager.__init__`'s client construction (lines 23-51).  `openAt n p`
is the outcome of the n-th `chromadb.PersistentClient(path = p)` attempt (each
attempt is a separate oracle value because the first failure deletes the store
directory before reopening); `t` is the current Unix time.  The chain: open the
fixed path; on `InconsistentHashError` wipe and reopen, and if that again raises
`InconsistentHashError` open a fresh timestamped path; on any other startup error
wipe and reopen, and if that fails at all open the fresh timestamped path. -/
def vectorStoreInit (openAt : Nat → String → Except ChromaErr α) (t : Nat) :
    Except ChromaErr α :=
  match openAt 0 db_path with
  | .ok c => .ok c
  | .error .inconsistentHash =>
    (match openAt 1 db_path with
     | .ok c => .ok c
     | .error .inconsistentHash => openAt 2 (fresh_path t)
     | .error .other => .error .other)
  | .error .other =>
    (match openAt 1 db_path with
     | .ok c => .ok c
     | .error _ => openAt 2 (fresh_path t))

/-- Stated from the spec's words, for comparison with `vectorStoreInit`: a
three-step fallback chain returning the first success. -/
def firstSuccess (a1 a2 a3 : Except ChromaErr α) : Except ChromaErr α :=
  match a1 with
  | .ok c => .ok c
  | .error _ =>
    (match a2 with
     | .ok c => .ok c
     | .error _ => a3)

/-- ChromaDB `Collection.add` semantics (external dependency, 0.4.x line pinned by
the repository's `chromadb.db.migrations.InconsistentHashError` import): a record
whose id already exists in the collection is skipped with a logged warning — `add`
does not update existing records (that is the separate `upsert` API). -/
def collectionAdd (es newEntries : List StoredEntry) : List StoredEntry :=
  newEntries.foldl
    (fun acc e => if acc.any (fun x => x.id = e.id) then acc else acc ++ [e]) es

/-- `VectorStoreManager.add_documents`: map chunks to (id, text, metadata) records
keyed by `chunk_id` and add them to the collection (embedding generation is the
external SentenceTransformer and does not affect the stored identity/metadata). -/
def add_documents (es : List StoredEntry) (chunks : List Chunk) : List StoredEntry :=
  collectionAdd es
    (chunks.map fun c =>
      { id := c.metadata.chunk_id, text := String.mk c.text,
        meta := { document := c.metadata.document, pageNum := some c.metadata.page } })

/-- `VectorStoreManager.get_collection_stats`: `collection.count()` with the name. -/
def get_collection_stats (name : String) (es : List StoredEntry) : CollectionStats :=
  { total_documents := es.length, collection_name := name }

/-- ChromaDB `Collection.query` (external dependency): the up-to-k nearest stored
entries by ascending distance to the query embedding; when fewer than k entries
exist it clamps to the collection size.  The embedding model is abstracted by the
per-query distance oracle `d`. -/
def collectionQuery (d : StoredEntry → ℚ) (es : List StoredEntry) (k : Nat) :
    List StoredEntry :=
  (List.insertionSort (fun a b => d a ≤ d b) es).take k

/-- `VectorStoreManager.search_similar` (lines 106-137): query the collection and
format each hit as text/metadata/distance.  The `if results` guard in the source is
equivalent to mapping over the possibly-empty hit list. -/
def search_similar (d : StoredEntry → ℚ) (es : List StoredEntry) (k : Nat) :
    List SearchResult :=
  (collectionQuery d es k).map fun e =>
    { text := e.text, meta := e.meta, distance := d e }

/-! ## LLMHandler -/

/-- State of an `LLMHandler` instance after construction (the fields assigned in
`__init__`). -/
structure LLMHandler where
  model : String
  ollama_error_message : String
  ollama_python : String
  ollama_available : Bool
  deriving DecidableEq

/-- Outcome of one `subprocess.run` invocation of the worker: either an exception
(timeout or launch failure) with its message, or completion with captured stdout
and stderr. -/
inductive WorkerRun where
  | raised (msg : String)
  | completed (stdout stderr : String)

/-- Outcome of `json.loads` on a worker's stripped stdout: not valid JSON, or a
payload with its `ok`, `answer` and `error` fields (absent fields are `none`;
`data.get` supplies the defaults). -/
inductive ParseResult where
  | notJson
  | payload (ok : Bool) (answer : Option String) (error : Option String)

/-- Python `str.strip()` on strings. -/
def pyStrip (s : String) : String := String.mk (stripChunk s.data)

/-- The availability probe evaluation of `LLMHandler.__init__` (lines 25-48),
returning (ollama_available, ollama_error_message). -/
def probeCheck (probe : WorkerRun) (parse : String → ParseResult) : Bool × String :=
  match probe with
  | .raised m => (false, "Failed to execute Ollama worker: " ++ m)
  | .completed out err =>
    let p :=
      if out ≠ "" then
        match parse (pyStrip out) with
        | .payload pk _ perr =>
          if pk then (true, "") else (false, perr.getD "Unknown error")
        | .notJson => (false, pyStrip out)
      else (false, "")
    let p :=
      if err ≠ "" ∧ p.1 = false then (p.1, pyStrip (p.2 ++ "\n" ++ pyStrip err)) else p
    if p.1 = false ∧ p.2 = "" then (p.1, "Ollama worker check failed.") else p

/-- `LLMHandler.__init__`: if no secondary venv Python is configured the handler is
unavailable with a fixed configuration message; otherwise availability and the
error message come from the one-time probe. -/
def initLLMHandler (model ollamaPython : String) (probe : WorkerRun)
    (parse : String → ParseResult) : LLMHandler :=
  if ollamaPython ≠ "" then
    let p := probeCheck probe parse
    { model := model, ollama_error_message := p.2,
      ollama_python := ollamaPython, ollama_available := p.1 }
  else
    { model := model,
      ollama_error_message :=
        "Secondary venv Python not configured. Set OLLAMA_PY to the python.exe " ++
        "of the Ollama venv (e.g., C:\\GIT\\DocuMind\\.venv_ollama\\Scripts\\python.exe).",
      ollama_python := "", ollama_available := false }

/-- Page field of a citation record: `doc['metadata'].get('page', 'N/A')` yields the
page number when present and the string N/A otherwise. -/
inductive PageField where
  | page (n : Nat)
  | na
  deriving DecidableEq

/-- A citation record `{document, page, text}` as built by `generate_answer`. -/
structure SourceRec where
  document : String
  page : PageField
  text : String
  deriving DecidableEq

/-- The per-chunk citation record of `generate_answer` (lines 100-105 / 167-172). -/
def mkSource (d : SearchResult) : SourceRec :=
  { document := d.meta.document,
    page :=
      match d.meta.pageNum with
      | some p => PageField.page p
      | none => PageField.na,
    text := d.text }

/-- `LLMHandler.generate_answer` (lines 78-174), in state-passing form: the method
assigns nothing to `self`, so the returned handler is the input handler.  When the
worker is unavailable the answer is the fixed unavailability string; otherwise the
live subprocess outcome `run` and the JSON-parse oracle `parse` determine the
answer through the source's fallback ladder; either way the citation list maps
every retrieved chunk in order.  Prompt assembly (`create_context`, the system and
user prompts) only feeds the subprocess arguments, which `run` abstracts. -/
def generate_answer (h : LLMHandler) (_query : String) (relevant_docs : List SearchResult)
    (run : WorkerRun) (parse : String → ParseResult) :
    (String × List SourceRec) × LLMHandler :=
  let answer :=
    if h.ollama_available = false then
      "LLM is unavailable. " ++ h.ollama_error_message
    else
      match run with
      | .raised m =>
        "Error generating response: " ++ m ++
          "\nPlease ensure the Ollama worker venv is configured."
      | .completed out err =>
        let a :=
          if out ≠ "" then
            match parse (pyStrip out) with
            | .payload ok ans perr =>
              if ok then ans.getD ""
              else "Error generating response: " ++ perr.getD "Unknown error"
            | .notJson => pyStrip out
          else ""
        let a :=
          if a = "" ∧ err ≠ "" then "Error generating response: " ++ pyStrip err else a
        if a = "" then "No response from Ollama worker." else a
  ((answer, relevant_docs.map mkSource), h)

/-- `LLMHandler.generate_summary` (lines 176-220), in state-passing form. -/
def generate_summary (h : LLMHandler) (_text : String) (run : WorkerRun)
    (parse : String → ParseResult) : String × LLMHandler :=
  let s :=
    if h.ollama_available = false then
      "LLM is unavailable. " ++ h.ollama_error_message
    else
      match run with
      | .raised m =>
        "Error generating summary: " ++ m ++
          "\nPlease ensure the Ollama worker venv is configured."
      | .completed out err =>
        if out ≠ "" then
          match parse (pyStrip out) with
          | .payload ok ans perr =>
            if ok then ans.getD ""
            else "Error generating summary: " ++ perr.getD "Unknown error"
          | .notJson => pyStrip out
        else if err ≠ "" then "Error generating summary: " ++ pyStrip err
        else "No response from Ollama worker."
  (s, h)

/-- One public call on an `LLMHandler` instance, with its external-world outcomes. -/
inductive HCall where
  | genAnswer (query : String) (docs : List SearchResult) (run : WorkerRun)
      (parse : String → ParseResult)
  | genSummary (text : String) (run : WorkerRun) (parse : String → ParseResult)

/-- The handler state after servicing one call. -/
def stepCall (h : LLMHandler) : HCall → LLMHandler
  | .genAnswer q docs run parse => (generate_answer h q docs run parse).2
  | .genSummary t run parse => (generate_summary h t run parse).2

/-! ## Orchestrator (app.py chat step) -/

/-- The fixed no-relevant-information response of `app.py` (line 160). -/
def no_info_response : String :=
  "I couldn't find relevant information in the documents to answer your question."

/-- The query-handling step of `app.py` (lines 137-166): if retrieval produced any
documents, generate an answer with sources; otherwise the fixed response with an
empty source list, and the generation worker is not invoked. -/
def chatStep (h : LLMHandler) (relevant_docs : List SearchResult) (query : String)
    (run : WorkerRun) (parse : String → ParseResult) : String × List SourceRec :=
  if relevant_docs ≠ [] then (generate_answer h query relevant_docs run parse).1
  else (no_info_response, [])

/-! ## Helper lemmas -/

/-- Membership in `enumFrom n l` pins the index to an offset below the length. -/
theorem mem_enumFrom {α : Type _} :
    ∀ (l : List α) (n : Nat) (p : Nat × α), p ∈ enumFrom n l →
      ∃ j, j < l.length ∧ p.1 = n + j
  | [], _, _, h => by simp [enumFrom] at h
  | a :: as, n, p, h => by
    simp only [enumFrom, List.mem_cons] at h
    rcases h with h | h
    · exact ⟨0, by simp, by simp [h]⟩
    · obtain ⟨j, hj, hp⟩ := mem_enumFrom as (n + 1) p h
      exact ⟨j + 1, by simpa using hj, by omega⟩

/-- Removing a list as a prefix of itself extended by `r` leaves `r`. -/
theorem stripPrefixQ_append : ∀ (l r : List Char), stripPrefixQ l (l ++ r) = some r
  | [], _ => rfl
  | a :: as, r => by simp [stripPrefixQ, stripPrefixQ_append as r]

/-- A list occurs as a substring of anything it suffixes. -/
theorem occursIn_append_self : ∀ (pre sub : List Char), occursIn sub (pre ++ sub) = true := by
  intro pre
  induction pre with
  | nil =>
    intro sub
    cases sub with
    | nil => rfl
    | cons c cs =>
      have h : stripPrefixQ (c :: cs) (c :: cs) = some [] := by
        simpa using stripPrefixQ_append (c :: cs) []
      simp [occursIn, h]
  | cons p ps ih =>
    intro sub
    simp [occursIn, ih sub]

/-! ## Demo fixtures used by witnesses and counterexamples -/

/-- A parse oracle for stdout that is not valid JSON. -/
def parseAlwaysNotJson : String → ParseResult := fun _ => ParseResult.notJson

/-- A parse oracle for a well-formed successful worker payload. -/
def parseAlwaysOk : String → ParseResult := fun _ => ParseResult.payload true (some "yes") none

/-- A completed worker run with no output on either stream. -/
def idleRun : WorkerRun := WorkerRun.completed "" ""

/-- A handler whose construction probe succeeded (state AVAILABLE). -/
def availHandlerDemo : LLMHandler :=
  initLLMHandler "llama3.1:8b" "/usr/bin/python3" (WorkerRun.completed "ready" "") parseAlwaysOk

/-- A handler constructed without a configured worker interpreter (state UNAVAILABLE). -/
def unavailHandlerDemo : LLMHandler :=
  initLLMHandler "llama3.1:8b" "" idleRun parseAlwaysNotJson

/-- A stored entry for the duplicate-id experiments. -/
def oldEntryDemo : StoredEntry :=
  { id := "a.pdf_page1_chunk0", text := "old text",
    meta := { document := "a.pdf", pageNum := some 1 } }

/-- A chunk carrying the same chunk_id as `oldEntryDemo` but different text. -/
def newChunkDemo : Chunk :=
  { text := "new text".toList,
    metadata := { document := "a.pdf", page := 1,
                  chunk_id := "a.pdf_page1_chunk0", source_type := "pdf" } }

/-- A two-entry store for the small-index query experiments. -/
def storeDemo : List StoredEntry :=
  [{ id := "a.pdf_page1_chunk0", text := "alpha text",
     meta := { document := "a.pdf", pageNum := some 1 } },
   { id := "b.txt_page1_chunk0", text := "beta",
     meta := { document := "b.txt", pageNum := some 1 } }]

/-- A concrete query-distance oracle. -/
def distDemo : StoredEntry → ℚ := fun e => (e.text.length : ℚ)

/-- Raw PDF page texts: a non-empty page, a whitespace-only page, a non-empty page. -/
def rawPagesDemo : List (List Char) :=
  ["Hello world".toList, " ".toList, "Again".toList]

/-- The first chunk the processor produces from `rawPagesDemo`. -/
def chunkDemo : Chunk :=
  { text := "Hello world".toList,
    metadata := { document := "doc.pdf", page := 1,
                  chunk_id := "doc.pdf_page1_chunk0", source_type := "pdf" } }

/-- Retrieved documents, one with a page number and one without. -/
def docsDemo : List SearchResult :=
  [{ text := "text one", meta := { document := "a.pdf", pageNum := some 2 }, distance := 0 },
   { text := "text two", meta := { document := "b.txt", pageNum := none }, distance := 1 }]

/-- A fallback-chain oracle: both opens of the fixed path hit the migration
incompatibility, the fresh timestamped path opens. -/
def openAtDemo : Nat → String → Except ChromaErr String := fun n p =>
  if n = 0 then Except.error ChromaErr.inconsistentHash
  else if n = 1 then Except.error ChromaErr.inconsistentHash
  else Except.ok p

/-- A fallback-chain oracle for the divergent path: the first open hits the
migration incompatibility, the wipe-and-reopen attempt fails with a different
error, the fresh timestamped path would open. -/
def openAtBadDemo : Nat → String → Except ChromaErr String := fun n p =>
  if n = 0 then Except.error ChromaErr.inconsistentHash
  else if n = 1 then Except.error ChromaErr.other
  else Except.ok p

/-! ## Claim theorems -/

/-- Claim C1 (code bug): the spec says the splitter tries paragraph break, line
break, word boundary, character, and on the worked example the first chunk is
"Paragraph one."; but `DocumentProcessor.__init__` passes the over-escaped literals
backslash-n-backslash-n and backslash-n as separators, so on input with real
newlines the text is only ever split at spaces and the first chunk is "Paragraph".
With the separators the spec describes (real newline characters, as in langchain's
documented defaults) the first chunk is "Paragraph one." as claimed. -/
theorem chunker_escaped_separators_bug :
    split_text 20 5 codeSeparators exampleText =
      ["Paragraph".toList, "one.\n\nParagraph two".toList,
       "two is longer than".toList, "than chunk size...".toList] ∧
    (split_text 20 5 codeSeparators exampleText).headD [] ≠ "Paragraph one.".toList ∧
    split_text 20 5 specSeparators exampleText =
      ["Paragraph one.".toList, "Paragraph two is".toList,
       "is longer than".toList, "than chunk size...".toList] :=
  ⟨by decide, by decide, by decide⟩

/-- Claim C2 counterexample: adding a chunk whose chunk_id already exists does not
replace the stored entry — the old text survives and the new text is nowhere in the
collection. -/
theorem add_existing_id_not_replaced :
    add_documents [oldEntryDemo] [newChunkDemo] = [oldEntryDemo] ∧
    ¬ "new text" ∈ (add_documents [oldEntryDemo] [newChunkDemo]).map StoredEntry.text :=
  ⟨by decide, by decide⟩

/-- Claim C2 (amended): for every collection state and chunk whose chunk_id already
exists in it, add leaves the collection unchanged — the duplicate is ignored, not
replaced — and stats().count is unchanged. -/
theorem add_existing_id_ignored (es : List StoredEntry) (c : Chunk) (name : String)
    (h : es.any (fun x => x.id = c.metadata.chunk_id) = true) :
    add_documents es [c] = es ∧
    (get_collection_stats name (add_documents es [c])).total_documents =
      (get_collection_stats name es).total_documents := by
  have he : add_documents es [c] = es := by
    simp only [add_documents, List.map, collectionAdd, List.foldl]
    rw [if_pos h]
  exact ⟨he, by rw [he]⟩

/-- Witness for `add_existing_id_ignored` at a concrete store and chunk. -/
theorem add_existing_id_ignored_witness :
    ([oldEntryDemo].any (fun x => x.id = newChunkDemo.metadata.chunk_id) = true) ∧
    (add_documents [oldEntryDemo] [newChunkDemo] = [oldEntryDemo] ∧
      (get_collection_stats "documind_collection"
          (add_documents [oldEntryDemo] [newChunkDemo])).total_documents =
        (get_collection_stats "documind_collection" [oldEntryDemo]).total_documents) :=
  ⟨by decide, add_existing_id_ignored [oldEntryDemo] newChunkDemo "documind_collection" (by decide)⟩

/-- Claim C3 counterexample: the unavailable-worker answer joins the prefix and the
reason with a period and a space, not with a colon: for a worker whose probe raised
"connection refused" the answer is "LLM is unavailable. Failed to execute Ollama
worker: connection refused" and differs from the claimed colon form. -/
theorem unavailable_message_period_counterexample :
    (generate_answer
        (initLLMHandler "llama3.1:8b" "/usr/bin/python3"
          (WorkerRun.raised "connection refused") parseAlwaysNotJson)
        "q" [] idleRun parseAlwaysNotJson).1.1 =
      "LLM is unavailable. Failed to execute Ollama worker: connection refused" ∧
    (generate_answer
        (initLLMHandler "llama3.1:8b" "/usr/bin/python3"
          (WorkerRun.raised "connection refused") parseAlwaysNotJson)
        "q" [] idleRun parseAlwaysNotJson).1.1 ≠
      "LLM is unavailable: Failed to execute Ollama worker: connection refused" :=
  ⟨by decide, by decide⟩

/-- Claim C3 (amended): for every handler whose state is not AVAILABLE and every
inputs, generate_answer returns the deterministic string
"LLM is unavailable. <reason>" (period and space, not a colon) containing the
recorded unavailability reason, generate_summary returns the same string, and both
are total — no exception path exists. -/
theorem unavailable_generate_returns_reason (h : LLMHandler)
    (hq : h.ollama_available = false) (q t : String) (docs : List SearchResult)
    (run : WorkerRun) (parse : String → ParseResult) :
    (generate_answer h q docs run parse).1.1 =
      "LLM is unavailable. " ++ h.ollama_error_message ∧
    occursIn h.ollama_error_message.data
      ((generate_answer h q docs run parse).1.1).data = true ∧
    (generate_summary h t run parse).1 =
      "LLM is unavailable. " ++ h.ollama_error_message := by
  have h1 : (generate_answer h q docs run parse).1.1 =
      "LLM is unavailable. " ++ h.ollama_error_message := by
    simp [generate_answer, hq]
  refine ⟨h1, ?_, by simp [generate_summary, hq]⟩
  rw [h1]
  simpa [String.data_append] using
    occursIn_append_self "LLM is unavailable. ".data h.ollama_error_message.data

/-- Witness for `unavailable_generate_returns_reason` on a concrete unavailable
handler. -/
theorem unavailable_generate_returns_reason_witness :
    unavailHandlerDemo.ollama_available = false ∧
    ((generate_answer unavailHandlerDemo "q" docsDemo idleRun parseAlwaysNotJson).1.1 =
      "LLM is unavailable. " ++ unavailHandlerDemo.ollama_error_message ∧
     occursIn unavailHandlerDemo.ollama_error_message.data
       ((generate_answer unavailHandlerDemo "q" docsDemo idleRun parseAlwaysNotJson).1.1).data
        = true ∧
     (generate_summary unavailHandlerDemo "some text" idleRun parseAlwaysNotJson).1 =
      "LLM is unavailable. " ++ unavailHandlerDemo.ollama_error_message) :=
  ⟨by decide,
   unavailable_generate_returns_reason unavailHandlerDemo (by decide) "q" "some text"
     docsDemo idleRun parseAlwaysNotJson⟩

/-- Claim C4 counterexample: on unparseable worker stdout the answer is the
stripped stdout, not the raw stdout verbatim — here stdout "partial output"
followed by a newline yields the answer "partial output" without the newline. -/
theorem live_answer_stripped_counterexample :
    (generate_answer availHandlerDemo "q" []
        (WorkerRun.completed "partial output\n" "") parseAlwaysNotJson).1.1 =
      "partial output" ∧
    "partial output" ≠ "partial output\n" :=
  ⟨by decide, by decide⟩

/-- Claim C4 (amended): for every outcome of a live generation attempt by an
AVAILABLE worker, generate_answer returns a string and never raises: a timeout or
launch failure becomes a descriptive error string; stdout that does not parse as
JSON is used as the answer after stripping surrounding whitespace (not verbatim);
and absence of both stdout and stderr yields the fixed no-response message. -/
theorem live_generation_degrades_to_string (h : LLMHandler)
    (hav : h.ollama_available = true) (q : String) (docs : List SearchResult)
    (out err m : String) (parse : String → ParseResult) :
    (generate_answer h q docs (WorkerRun.raised m) parse).1.1 =
      "Error generating response: " ++ m ++
        "\nPlease ensure the Ollama worker venv is configured." ∧
    (parse (pyStrip out) = ParseResult.notJson → ¬ pyStrip out = "" → ¬ out = "" →
      (generate_answer h q docs (WorkerRun.completed out err) parse).1.1 = pyStrip out) ∧
    (generate_answer h q docs idleRun parse).1.1 = "No response from Ollama worker." := by
  refine ⟨by simp [generate_answer, hav], ?_, by simp [generate_answer, idleRun, hav]⟩
  intro hp hs ho
  simp [generate_answer, hav, hp, hs, ho]

/-- Witness for `live_generation_degrades_to_string` on a concrete available
handler and concrete worker outcomes. -/
theorem live_generation_degrades_to_string_witness :
    availHandlerDemo.ollama_available = true ∧
    (generate_answer availHandlerDemo "q" []
        (WorkerRun.completed "partial output\n" "") parseAlwaysNotJson).1.1 =
      pyStrip "partial output\n" ∧
    (generate_answer availHandlerDemo "q" [] idleRun parseAlwaysNotJson).1.1 =
      "No response from Ollama worker." :=
  ⟨by decide,
   (live_generation_degrades_to_string availHandlerDemo (by decide) "q" []
       "partial output\n" "" "m" parseAlwaysNotJson).2.1 rfl (by decide) (by decide),
   (live_generation_degrades_to_string availHandlerDemo (by decide) "q" []
       "partial output\n" "" "m" parseAlwaysNotJson).2.2⟩

/-- Claim C5: when retrieval returns no documents — in particular on an empty
index — the chat step returns the fixed no-relevant-information answer with an
empty source list, and the generation worker is not invoked (the result does not
depend on the worker-run or parse oracles). -/
theorem empty_retrieval_fixed_answer (h : LLMHandler) (q : String)
    (d : StoredEntry → ℚ) (k : Nat) (run run' : WorkerRun)
    (parse parse' : String → ParseResult) :
    chatStep h (search_similar d [] k) q run parse = (no_info_response, []) ∧
    chatStep h [] q run parse = (no_info_response, []) ∧
    chatStep h [] q run parse = chatStep h [] q run' parse' := by
  have he : search_similar d [] k = [] := by
    simp [search_similar, collectionQuery, List.insertionSort]
  refine ⟨?_, by simp [chatStep], by simp [chatStep]⟩
  rw [he]
  simp [chatStep]

instance instIsTotalDistLe (d : StoredEntry → ℚ) :
    IsTotal StoredEntry (fun a b => d a ≤ d b) :=
  ⟨fun a b => le_total (d a) (d b)⟩

instance instIsTransDistLe (d : StoredEntry → ℚ) :
    IsTrans StoredEntry (fun a b => d a ≤ d b) :=
  ⟨fun _ _ _ hab hbc => le_trans hab hbc⟩

/-- Claim C6: querying an index of m entries with m < k returns exactly m results —
a permutation of all available entries — sorted by ascending distance, and the
search on an empty index returns the empty sequence; no error path exists. -/
theorem query_small_index_returns_all (d : StoredEntry → ℚ) (es : List StoredEntry)
    (k : Nat) (h : es.length < k) :
    (search_similar d es k).length = es.length ∧
    List.Sorted (fun a b : SearchResult => a.distance ≤ b.distance) (search_similar d es k) ∧
    List.Perm ((search_similar d es k).map (fun r => (r.text, r.meta)))
      (es.map (fun e => (e.text, e.meta))) ∧
    search_similar d [] k = [] := by
  have hperm := List.perm_insertionSort (fun a b => d a ≤ d b) es
  have hlen : (List.insertionSort (fun a b => d a ≤ d b) es).length = es.length :=
    hperm.length_eq
  have htake : (List.insertionSort (fun a b => d a ≤ d b) es).take k =
      List.insertionSort (fun a b => d a ≤ d b) es :=
    List.take_of_length_le (by omega)
  have hss : search_similar d es k =
      (List.insertionSort (fun a b => d a ≤ d b) es).map
        (fun e => { text := e.text, meta := e.meta, distance := d e }) := by
    simp [search_similar, collectionQuery, htake]
  refine ⟨by rw [hss]; simp [hlen], ?_, ?_, by simp [search_similar, collectionQuery]⟩
  · rw [hss]
    show List.Pairwise _ _
    rw [List.pairwise_map]
    exact List.sorted_insertionSort (fun a b => d a ≤ d b) es
  · rw [hss, List.map_map]
    simpa using hperm.map (fun e => (e.text, e.meta))

/-- Witness for `query_small_index_returns_all` on a concrete two-entry store
queried with k = 4. -/
theorem query_small_index_returns_all_witness :
    storeDemo.length < 4 ∧
    ((search_similar distDemo storeDemo 4).length = storeDemo.length ∧
     List.Sorted (fun a b : SearchResult => a.distance ≤ b.distance)
       (search_similar distDemo storeDemo 4) ∧
     List.Perm ((search_similar distDemo storeDemo 4).map (fun r => (r.text, r.meta)))
       (storeDemo.map (fun e => (e.text, e.meta))) ∧
     search_similar distDemo [] 4 = []) :=
  ⟨by decide, query_small_index_returns_all distDemo storeDemo 4 (by decide)⟩

/-- Claim C7 counterexample: the chain does not always return the first success.
When the first open fails with the structural/version incompatibility and the
wipe-and-reopen attempt fails with a different error, the source's inner
`except InconsistentHashError` does not catch it: the error propagates out of
construction and the fresh timestamped path — which here would succeed — is never
attempted, so construction fails on a storage-corruption scenario. -/
theorem init_fallback_chain_counterexample :
    vectorStoreInit openAtBadDemo 1700000000 = Except.error ChromaErr.other ∧
    (openAtBadDemo 2 (fresh_path 1700000000)).isOk = true ∧
    (vectorStoreInit openAtBadDemo 1700000000).isOk = false ∧
    vectorStoreInit openAtBadDemo 1700000000 ≠
      firstSuccess (openAtBadDemo 0 db_path) (openAtBadDemo 1 db_path)
        (openAtBadDemo 2 (fresh_path 1700000000)) :=
  ⟨rfl, rfl, rfl, fun hx => Except.noConfusion hx⟩

/-- Claim C7 (amended): construction of the vector store follows the three-step
fallback chain — open the fixed path, wipe-and-reopen, fresh timestamp-suffixed
path — and returns the first success of the three attempts provided the
wipe-and-reopen attempt does not fail with a non-corruption error (in that one
path, after an initial structural/version incompatibility, the source re-raises
instead of attempting the fresh path); under that proviso, whenever the fresh
store opens, construction succeeds. -/
theorem init_fallback_first_success {α : Type} (openAt : Nat → String → Except ChromaErr α)
    (t : Nat) (h : openAt 1 db_path ≠ Except.error ChromaErr.other) :
    vectorStoreInit openAt t =
      firstSuccess (openAt 0 db_path) (openAt 1 db_path) (openAt 2 (fresh_path t)) ∧
    ((openAt 2 (fresh_path t)).isOk = true → (vectorStoreInit openAt t).isOk = true) := by
  cases h0 : openAt 0 db_path with
  | ok c0 => simp [vectorStoreInit, firstSuccess, h0, Except.isOk, Except.toBool]
  | error e0 =>
    cases h1 : openAt 1 db_path with
    | ok c1 =>
      cases e0 <;> simp [vectorStoreInit, firstSuccess, h0, h1, Except.isOk, Except.toBool]
    | error e1 =>
      cases e1 with
      | inconsistentHash =>
        cases e0 <;> simp [vectorStoreInit, firstSuccess, h0, h1, Except.isOk, Except.toBool]
      | other => exact absurd h1 h

/-- Witness for `init_fallback_first_success`: both opens of the fixed path fail
with the migration incompatibility and the fresh path succeeds. -/
theorem init_fallback_first_success_witness :
    openAtDemo 1 db_path ≠ Except.error ChromaErr.other ∧
    (vectorStoreInit openAtDemo 1700000000 =
      firstSuccess (openAtDemo 0 db_path) (openAtDemo 1 db_path)
        (openAtDemo 2 (fresh_path 1700000000)) ∧
     ((openAtDemo 2 (fresh_path 1700000000)).isOk = true →
       (vectorStoreInit openAtDemo 1700000000).isOk = true)) := by
  have hne : openAtDemo 1 db_path ≠ Except.error ChromaErr.other := by
    intro hx
    have h2 : Except.error (ε := ChromaErr) (α := String) ChromaErr.inconsistentHash =
        Except.error ChromaErr.other := hx
    exact ChromaErr.noConfusion (Except.error.inj h2)
  exact ⟨hne, init_fallback_first_success openAtDemo 1700000000 hne⟩

/-- Claim C8: every chunk produced from a successfully processed document carries
chunk_id = "<filename>_page<page>_chunk<index>" where the index is the zero-based
position of the chunk within its page's chunk list (restarting at 0 on each page)
and PDF page numbers are one-based positions in the original page sequence — the
id is a deterministic function of (filename, page, chunk index). -/
theorem chunk_id_format_deterministic (chunkSize overlap : Nat) (seps : List (List Char))
    (fn st : String) (raw : List (List Char)) :
    (∀ pd ∈ extract_text_from_pdf raw, ∃ i, i < raw.length ∧ pd.page = i + 1) ∧
    (∀ c ∈ process_document chunkSize overlap seps fn st (extract_text_from_pdf raw),
      ∃ pd ∈ extract_text_from_pdf raw, ∃ idx,
        (idx, c.text) ∈ enumFrom 0 (split_text chunkSize overlap seps pd.text) ∧
        c.metadata.document = fn ∧ c.metadata.page = pd.page ∧
        c.metadata.source_type = st ∧
        c.metadata.chunk_id =
          fn ++ "_page" ++ toString pd.page ++ "_chunk" ++ toString idx) := by
  constructor
  · intro pd hpd
    simp only [extract_text_from_pdf, List.mem_filterMap] at hpd
    obtain ⟨p, hp, hf⟩ := hpd
    obtain ⟨j, hj, hpj⟩ := mem_enumFrom raw 1 p hp
    split at hf
    · obtain rfl := Option.some_injective _ hf
      refine ⟨j, hj, ?_⟩
      show p.1 = j + 1
      omega
    · exact absurd hf (by simp)
  · intro c hc
    simp only [process_document, List.mem_flatten, List.mem_map] at hc
    obtain ⟨l, ⟨pd, hpd, hfl⟩, hcl⟩ := hc
    subst hfl
    rw [List.mem_map] at hcl
    obtain ⟨ic, hic, hgc⟩ := hcl
    subst hgc
    exact ⟨pd, hpd, ic.1, hic, rfl, rfl, rfl, rfl⟩

/-- Witness for `chunk_id_format_deterministic`: the first chunk produced from the
demo PDF pages has the claimed identifier shape. -/
theorem chunk_id_format_deterministic_witness :
    ∃ pd ∈ extract_text_from_pdf rawPagesDemo, ∃ idx,
      (idx, chunkDemo.text) ∈ enumFrom 0 (split_text 20 5 codeSeparators pd.text) ∧
      chunkDemo.metadata.document = "doc.pdf" ∧ chunkDemo.metadata.page = pd.page ∧
      chunkDemo.metadata.source_type = "pdf" ∧
      chunkDemo.metadata.chunk_id =
        "doc.pdf" ++ "_page" ++ toString pd.page ++ "_chunk" ++ toString idx :=
  (chunk_id_format_deterministic 20 5 codeSeparators "doc.pdf" "pdf" rawPagesDemo).2
    chunkDemo (by decide)

/-- Claim C9: worker availability and the recorded unavailability reason are fixed
at construction and immutable for the instance's lifetime — servicing any sequence
of generate/summary calls leaves the handler state (in particular
`ollama_available` and `ollama_error_message`) exactly as constructed, so an
unavailable worker stays unavailable for every subsequent call. -/
theorem availability_immutable_after_init (h : LLMHandler) (calls : List HCall) :
    calls.foldl stepCall h = h ∧
    (calls.foldl stepCall h).ollama_available = h.ollama_available ∧
    (calls.foldl stepCall h).ollama_error_message = h.ollama_error_message := by
  have hstep : ∀ (h' : LLMHandler) (c : HCall), stepCall h' c = h' := by
    intro h' c
    cases c <;> rfl
  have hfold : calls.foldl stepCall h = h := by
    induction calls with
    | nil => rfl
    | cons c cs ih => rw [List.foldl_cons, hstep, ih]
  exact ⟨hfold, by rw [hfold], by rw [hfold]⟩

/-- Claim C10: even when the worker is unavailable, generate_answer returns the
complete citation list — one {document, page, text} record per retrieved chunk, in
retrieval order, with the page field defaulting to N/A when the metadata has no
page — and performs no worker invocation (the result is independent of the
worker-run and parse oracles). -/
theorem unavailable_sources_complete (h : LLMHandler)
    (hq : h.ollama_available = false) (q : String) (docs : List SearchResult)
    (run run' : WorkerRun) (parse parse' : String → ParseResult) :
    (generate_answer h q docs run parse).1.2 =
      docs.map (fun d =>
        { document := d.meta.document,
          page :=
            match d.meta.pageNum with
            | some p => PageField.page p
            | none => PageField.na,
          text := d.text }) ∧
    ((generate_answer h q docs run parse).1.2).length = docs.length ∧
    generate_answer h q docs run parse = generate_answer h q docs run' parse' := by
  refine ⟨rfl, by simp [generate_answer], ?_⟩
  simp [generate_answer, hq]

/-- Witness for `unavailable_sources_complete` on a concrete unavailable handler
and two retrieved documents, one of which has no page metadata. -/
theorem unavailable_sources_complete_witness :
    unavailHandlerDemo.ollama_available = false ∧
    ((generate_answer unavailHandlerDemo "q" docsDemo idleRun parseAlwaysOk).1.2 =
      docsDemo.map (fun d =>
        { document := d.meta.document,
          page :=
            match d.meta.pageNum with
            | some p => PageField.page p
            | none => PageField.na,
          text := d.text }) ∧
     ((generate_answer unavailHandlerDemo "q" docsDemo idleRun parseAlwaysOk).1.2).length =
       docsDemo.length ∧
     generate_answer unavailHandlerDemo "q" docsDemo idleRun parseAlwaysOk =
       generate_answer unavailHandlerDemo "q" docsDemo (WorkerRun.raised "boom")
         parseAlwaysNotJson) :=
  ⟨by decide,
   unavailable_sources_complete unavailHandlerDemo (by decide) "q" docsDemo idleRun
     (WorkerRun.raised "boom") parseAlwaysOk parseAlwaysNotJson⟩

end DocuMind
